import Mathlib

/-!
Verification of the Flask + Redis HTTP façade (`src/RedisP/main.py`).

The service maps REST-style routes onto single Redis commands.  We embed
the Redis store as a finite map from keys to typed values, the Redis
commands used by the service as pure functions on that store (a command
either succeeds or raises an error, which we model with `Except`), and
each Flask route handler as a pure function from its path parameters and
the current store to an HTTP result: a status code, a JSON body, the new
store, and the number of log lines emitted.
-/

/-- A JSON value, as produced by Flask's `jsonify`. -/
inductive JVal where
  | s (v : String)
  | i (v : Int)
  | arr (vs : List JVal)
  | obj (fs : List (String × JVal))
deriving Repr

/-- A value stored in Redis under one key.  Scalars are strings; Redis
additionally stores integer-looking scalars with an integer encoding
(`RVal.int`), which is what `INCR` produces.  `GET` of an `int` scalar
yields its decimal text. -/
inductive RVal where
  | str (v : String)
  | int (n : Int)
  | list (xs : List String)
  | set (xs : List String)
  | hash (fs : List (String × String))
  | zset (ms : List (String × Int))
deriving DecidableEq, Repr

/-- The Redis database: an association list from keys to values. -/
def Store := List (String × RVal)

/-- Look a key up in the store. -/
def getKey (k : String) : Store → Option RVal
  | [] => none
  | (k', v) :: rest => if k' = k then some v else getKey k rest

/-- Bind a key in the store, replacing any previous binding. -/
def setKey (k : String) (v : RVal) (s : Store) : Store :=
  (k, v) :: s.filter (fun p => p.1 ≠ k)

/-- Errors a Redis command can raise.  `wrongType` is the WRONGTYPE
response error raised when a command is applied to a key holding an
incompatible structure; `other` covers every other response error. -/
inductive RedisErr where
  | wrongType
  | other (msg : String)
deriving DecidableEq, Repr

/-- `SET key value`: stores a string scalar, overwriting any old value. -/
def rSet (k v : String) (s : Store) : Store :=
  setKey k (RVal.str v) s

/-- `GET key`: returns the scalar at the key, `none` when absent,
WRONGTYPE when the key holds a non-scalar structure. -/
def rGet (k : String) (s : Store) : Except RedisErr (Option String) :=
  match getKey k s with
  | none => .ok none
  | some (RVal.str v) => .ok (some v)
  | some (RVal.int n) => .ok (some (toString n))
  | some _ => .error .wrongType

/-- `LPUSH key value`: prepends to the list at the key, creating it when
absent; WRONGTYPE when the key holds a non-list. -/
def rLpush (k v : String) (s : Store) : Except RedisErr Store :=
  match getKey k s with
  | none => .ok (setKey k (RVal.list [v]) s)
  | some (RVal.list xs) => .ok (setKey k (RVal.list (v :: xs)) s)
  | some _ => .error .wrongType

/-- `LRANGE key 0 -1`: the full list at the key, `[]` when absent. -/
def rLrange (k : String) (s : Store) : Except RedisErr (List String) :=
  match getKey k s with
  | none => .ok []
  | some (RVal.list xs) => .ok xs
  | some _ => .error .wrongType

/-- `SADD key value`: adds a member to the set at the key, creating it
when absent; a member already present is not added again. -/
def rSadd (k v : String) (s : Store) : Except RedisErr Store :=
  match getKey k s with
  | none => .ok (setKey k (RVal.set [v]) s)
  | some (RVal.set xs) =>
      if v ∈ xs then .ok s else .ok (setKey k (RVal.set (xs ++ [v])) s)
  | some _ => .error .wrongType

/-- `SMEMBERS key`: the members of the set at the key, `[]` when absent. -/
def rSmembers (k : String) (s : Store) : Except RedisErr (List String) :=
  match getKey k s with
  | none => .ok []
  | some (RVal.set xs) => .ok xs
  | some _ => .error .wrongType

/-- `HSET key field value`: sets one field of the hash at the key. -/
def rHset (k f v : String) (s : Store) : Except RedisErr Store :=
  match getKey k s with
  | none => .ok (setKey k (RVal.hash [(f, v)]) s)
  | some (RVal.hash fs) =>
      .ok (setKey k (RVal.hash ((f, v) :: fs.filter (fun p => p.1 ≠ f))) s)
  | some _ => .error .wrongType

/-- `HGETALL key`: all fields of the hash at the key, `[]` when absent. -/
def rHgetall (k : String) (s : Store) : Except RedisErr (List (String × String)) :=
  match getKey k s with
  | none => .ok []
  | some (RVal.hash fs) => .ok fs
  | some _ => .error .wrongType

/-- `ZADD key {member: score}`: adds the member to the sorted set at the
key, replacing its score when it is already a member. -/
def rZadd (k m : String) (sc : Int) (s : Store) : Except RedisErr Store :=
  match getKey k s with
  | none => .ok (setKey k (RVal.zset [(m, sc)]) s)
  | some (RVal.zset ms) =>
      .ok (setKey k (RVal.zset ((m, sc) :: ms.filter (fun q => q.1 ≠ m))) s)
  | some _ => .error .wrongType

/-- Insert one scored member into a list sorted by score, ties broken by
member name, as Redis orders a sorted set. -/
def zinsert (p : String × Int) : List (String × Int) → List (String × Int)
  | [] => [p]
  | q :: qs =>
      if p.2 < q.2 ∨ (p.2 = q.2 ∧ p.1 ≤ q.1) then p :: q :: qs
      else q :: zinsert p qs

/-- Sort scored members by score, ties broken by member name. -/
def zsortList : List (String × Int) → List (String × Int)
  | [] => []
  | p :: ps => zinsert p (zsortList ps)

/-- `ZRANGE key 0 -1 WITHSCORES`: the members of the sorted set at the
key in score order, with their scores; `[]` when absent. -/
def rZrange (k : String) (s : Store) : Except RedisErr (List (String × Int)) :=
  match getKey k s with
  | none => .ok []
  | some (RVal.zset ms) => .ok (zsortList ms)
  | some _ => .error .wrongType

/-- `INCR key`: increments the integer scalar at the key, creating it as
1 when absent.  A string scalar must parse as an integer; a non-scalar
raises WRONGTYPE. -/
def rIncr (k : String) (s : Store) : Except RedisErr (Int × Store) :=
  match getKey k s with
  | none => .ok (1, setKey k (RVal.int 1) s)
  | some (RVal.int n) => .ok (n + 1, setKey k (RVal.int (n + 1)) s)
  | some (RVal.str v) =>
      match v.toInt? with
      | some n => .ok (n + 1, setKey k (RVal.int (n + 1)) s)
      | none => .error (.other "value is not an integer or out of range")
  | some _ => .error .wrongType

/-- An HTTP response: status code and JSON-object body. -/
structure Response where
  code : Nat
  body : List (String × JVal)
deriving Repr

/-- The result of one request: the response, the store afterwards, and
the number of log lines the handler emitted. -/
structure HResult where
  resp : Response
  store : Store
  logs : Nat

/-- Look a field up in a JSON-object body. -/
def jget (body : List (String × JVal)) (field : String) : Option JVal :=
  match body with
  | [] => none
  | (f, v) :: rest => if f = field then some v else jget rest field

/-- Route `/`: lists the available endpoints.  Emits no log line and
carries no `status` field. -/
def home (s : Store) : HResult :=
  ⟨⟨200, [("message", .s "Welcome to Flask + Redis Example!"),
          ("endpoints", .arr [
            .s "/set/<key>/<value>", .s "/get/<key>",
            .s "/list/<key>/push/<value>", .s "/list/<key>",
            .s "/set/add/<key>/<value>", .s "/set/view/<key>",
            .s "/hash/<key>/<field>/<value>", .s "/hash/view/<key>",
            .s "/zset/<key>/<member>/<int:score>", .s "/zset/view/<key>",
            .s "/visits"])]⟩, s, 0⟩

/-- Route `/set/<key>/<value>`: `r.set(key, value)`, then logs and
reports success. -/
def set_value (key value : String) (s : Store) : HResult :=
  ⟨⟨200, [("status", .s "success"),
          ("message", .s ("Stored " ++ key ++ " = " ++ value ++ " in Redis"))]⟩,
   rSet key value s, 1⟩

/-- Route `/get/<key>`: `r.get(key)`; a truthy value (a non-empty byte
string) is decoded and returned with 200, a falsy one (absent key, or
the empty string) yields 404 without logging; an exception yields 500. -/
def get_value (key : String) (s : Store) : HResult :=
  match rGet key s with
  | .ok (some v) =>
      if v ≠ "" then
        ⟨⟨200, [("status", .s "success"), ("key", .s key), ("value", .s v)]⟩, s, 1⟩
      else
        ⟨⟨404, [("status", .s "error"),
                ("message", .s ("Key '" ++ key ++ "' not found"))]⟩, s, 0⟩
  | .ok none =>
      ⟨⟨404, [("status", .s "error"),
              ("message", .s ("Key '" ++ key ++ "' not found"))]⟩, s, 0⟩
  | .error _ =>
      ⟨⟨500, [("status", .s "error"), ("message", .s "redis error")]⟩, s, 1⟩

/-- Route `/list/<key>/push/<value>`: `r.lpush(key, value)`. -/
def push_list (key value : String) (s : Store) : HResult :=
  match rLpush key value s with
  | .ok s' =>
      ⟨⟨200, [("status", .s "success"),
              ("message", .s ("Pushed " ++ value ++ " to list " ++ key))]⟩, s', 1⟩
  | .error _ =>
      ⟨⟨500, [("status", .s "error"), ("message", .s "redis error")]⟩, s, 1⟩

/-- Route `/list/<key>`: `r.lrange(key, 0, -1)`; an empty result yields
404 with status `empty`; the success path emits no log line. -/
def get_list (key : String) (s : Store) : HResult :=
  match rLrange key s with
  | .ok values =>
      if values.isEmpty then
        ⟨⟨404, [("status", .s "empty"),
                ("message", .s ("List " ++ key ++ " is empty or does not exist"))]⟩, s, 0⟩
      else
        ⟨⟨200, [("status", .s "success"), ("key", .s key),
                ("values", .arr (values.map JVal.s))]⟩, s, 0⟩
  | .error _ =>
      ⟨⟨500, [("status", .s "error"), ("message", .s "redis error")]⟩, s, 1⟩

/-- The `try`/`except` dispatch of `add_set_member` applied to the
outcome of `r.sadd(key, value)`: success logs and returns 200, a
WRONGTYPE response error returns 400 without logging, every other error
logs and returns 500. -/
def add_set_member_core (key value : String) (s : Store)
    (res : Except RedisErr Store) : HResult :=
  match res with
  | .ok s' =>
      ⟨⟨200, [("status", .s "success"),
              ("message", .s ("Added " ++ value ++ " to set " ++ key))]⟩, s', 1⟩
  | .error .wrongType =>
      ⟨⟨400, [("status", .s "error"),
              ("message", .s ("Key '" ++ key ++ "' exists but is not a set"))]⟩, s, 0⟩
  | .error (.other msg) =>
      ⟨⟨500, [("status", .s "error"), ("message", .s msg)]⟩, s, 1⟩

/-- Route `/set/add/<key>/<value>`. -/
def add_set_member (key value : String) (s : Store) : HResult :=
  add_set_member_core key value s (rSadd key value s)

/-- Route `/set/view/<key>`: `r.smembers(key)`; an empty result yields
404 with status `empty`. -/
def view_set (key : String) (s : Store) : HResult :=
  match rSmembers key s with
  | .ok members =>
      if members.isEmpty then
        ⟨⟨404, [("status", .s "empty"),
                ("message", .s ("Set " ++ key ++ " is empty or does not exist"))]⟩, s, 0⟩
      else
        ⟨⟨200, [("status", .s "success"), ("key", .s key),
                ("members", .arr (members.map JVal.s))]⟩, s, 0⟩
  | .error _ =>
      ⟨⟨500, [("status", .s "error"), ("message", .s "redis error")]⟩, s, 1⟩

/-- Route `/hash/<key>/<field>/<value>`: `r.hset(key, field, value)`. -/
def set_hash_field (key field value : String) (s : Store) : HResult :=
  match rHset key field value s with
  | .ok s' =>
      ⟨⟨200, [("status", .s "success"),
              ("message", .s ("Set " ++ field ++ " = " ++ value ++ " in hash " ++ key))]⟩,
       s', 1⟩
  | .error _ =>
      ⟨⟨500, [("status", .s "error"), ("message", .s "redis error")]⟩, s, 1⟩

/-- Route `/hash/view/<key>`: `r.hgetall(key)`; an empty result yields
404 with status `empty`. -/
def view_hash (key : String) (s : Store) : HResult :=
  match rHgetall key s with
  | .ok fs =>
      if fs.isEmpty then
        ⟨⟨404, [("status", .s "empty"),
                ("message", .s ("Hash " ++ key ++ " is empty or does not exist"))]⟩, s, 0⟩
      else
        ⟨⟨200, [("status", .s "success"), ("key", .s key),
                ("fields", .obj (fs.map (fun p => (p.1, JVal.s p.2))))]⟩, s, 0⟩
  | .error _ =>
      ⟨⟨500, [("status", .s "error"), ("message", .s "redis error")]⟩, s, 1⟩

/-- Route `/zset/<key>/<member>/<int:score>`: `r.zadd(key, {member: score})`. -/
def add_zset_member (key member : String) (score : Int) (s : Store) : HResult :=
  match rZadd key member score s with
  | .ok s' =>
      ⟨⟨200, [("status", .s "success"),
              ("message", .s ("Added " ++ member ++ " with score " ++ toString score
                ++ " to sorted set " ++ key))]⟩, s', 1⟩
  | .error _ =>
      ⟨⟨500, [("status", .s "error"), ("message", .s "redis error")]⟩, s, 1⟩

/-- Route `/zset/view/<key>`: `r.zrange(key, 0, -1, withscores=True)`;
each item becomes an object `{member, score}`; an empty result yields
404 with status `empty`. -/
def view_zset (key : String) (s : Store) : HResult :=
  match rZrange key s with
  | .ok items =>
      if items.isEmpty then
        ⟨⟨404, [("status", .s "empty"),
                ("message", .s ("Sorted set " ++ key ++ " is empty or does not exist"))]⟩,
         s, 0⟩
      else
        ⟨⟨200, [("status", .s "success"), ("key", .s key),
                ("members", .arr (items.map (fun q =>
                  JVal.obj [("member", .s q.1), ("score", .i q.2)])))]⟩, s, 0⟩
  | .error _ =>
      ⟨⟨500, [("status", .s "error"), ("message", .s "redis error")]⟩, s, 1⟩

/-- Route `/visits`: `r.incr('visit_count')`; the success body carries
`message` and `total_visits` but no `status` field. -/
def visit_counter (s : Store) : HResult :=
  match rIncr "visit_count" s with
  | .ok (n, s') =>
      ⟨⟨200, [("message", .s "Page visit counter"), ("total_visits", .i n)]⟩, s', 1⟩
  | .error _ =>
      ⟨⟨500, [("status", .s "error"), ("message", .s "redis error")]⟩, s, 1⟩

/-! ### Basic store lemmas -/

theorem getKey_setKey_self (k : String) (v : RVal) (s : Store) :
    getKey k (setKey k v s) = some v := by
  simp [getKey, setKey]

/-! ### Claims -/

/-- Claim C1: setting a key and then getting it (with no intervening writes)
returns 200 with a `success` status and a `value` field equal to the
value written.  The hypothesis `value ≠ ""` reflects the HTTP surface:
Flask's `<value>` path segment always matches at least one character. -/
theorem set_then_get_roundtrip (key value : String) (s : Store)
    (hv : value ≠ "") :
    (get_value key (set_value key value s).store).resp.code = 200 ∧
    jget (get_value key (set_value key value s).store).resp.body "value" = some (.s value) := by
  simp [get_value, set_value, rGet, rSet, getKey_setKey_self, jget, hv]

/-- Claim C1 witness at key `"a"`, value `"1"`, empty store. -/
theorem set_then_get_roundtrip_witness :
    ("1" : String) ≠ "" ∧
    ((get_value "a" (set_value "a" "1" []).store).resp.code = 200 ∧
     jget (get_value "a" (set_value "a" "1" []).store).resp.body "value" = some (.s "1")) :=
  ⟨by decide, set_then_get_roundtrip "a" "1" [] (by decide)⟩

/-- Claim C10: when a key holds the empty string, `/get/<key>` reports the key
as not found with 404, because the handler tests the fetched value for
truthiness and the empty byte string is falsy. -/
theorem get_empty_string_value_not_found (key : String) (s : Store)
    (h : getKey key s = some (RVal.str "")) :
    (get_value key s).resp.code = 404 ∧
    jget (get_value key s).resp.body "status" = some (.s "error") ∧
    jget (get_value key s).resp.body "message"
      = some (.s ("Key '" ++ key ++ "' not found")) := by
  simp [get_value, rGet, h, jget]

/-- Claim C10 witness at key `"k"` bound to the empty string. -/
theorem get_empty_string_value_not_found_witness :
    getKey "k" [("k", RVal.str "")] = some (RVal.str "") ∧
    ((get_value "k" [("k", RVal.str "")]).resp.code = 404 ∧
     jget (get_value "k" [("k", RVal.str "")]).resp.body "status" = some (.s "error") ∧
     jget (get_value "k" [("k", RVal.str "")]).resp.body "message"
       = some (.s ("Key '" ++ "k" ++ "' not found"))) :=
  ⟨by decide, get_empty_string_value_not_found "k" [("k", RVal.str "")] (by decide)⟩

/-- Claim C7: reading a list key that is absent or holds an empty list yields
404 with status `empty`. -/
theorem get_list_empty_404 (key : String) (s : Store)
    (h : getKey key s = none ∨ getKey key s = some (RVal.list [])) :
    (get_list key s).resp.code = 404 ∧
    jget (get_list key s).resp.body "status" = some (.s "empty") := by
  rcases h with h | h <;> simp [get_list, rLrange, h, jget]

/-- Claim C7 witness at key `"L"` in the empty store. -/
theorem get_list_empty_404_witness :
    (getKey "L" [] = none ∨ getKey "L" [] = some (RVal.list [])) ∧
    ((get_list "L" []).resp.code = 404 ∧
     jget (get_list "L" []).resp.body "status" = some (.s "empty")) :=
  ⟨Or.inl (by decide), get_list_empty_404 "L" [] (Or.inl (by decide))⟩

/-- Claim C4: pushing `x` and then `y` onto a list that starts empty and
reading it back returns the values in prepend order `[y, x]`. -/
theorem push_push_read_prepend_order (L x y : String) (s : Store)
    (h : getKey L s = none ∨ getKey L s = some (RVal.list [])) :
    (get_list L (push_list L y (push_list L x s).store).store).resp.code = 200 ∧
    jget (get_list L (push_list L y (push_list L x s).store).store).resp.body "values"
      = some (.arr [.s y, .s x]) := by
  rcases h with h | h <;>
    simp [push_list, get_list, rLpush, rLrange, h, getKey_setKey_self, jget]

/-- Claim C4 witness at key `"L"`, values `"x"` then `"y"`, empty store. -/
theorem push_push_read_prepend_order_witness :
    (getKey "L" [] = none ∨ getKey "L" [] = some (RVal.list [])) ∧
    ((get_list "L" (push_list "L" "y" (push_list "L" "x" []).store).store).resp.code = 200 ∧
     jget (get_list "L" (push_list "L" "y" (push_list "L" "x" []).store).store).resp.body
       "values" = some (.arr [.s "y", .s "x"])) :=
  ⟨Or.inl (by decide), push_push_read_prepend_order "L" "x" "y" [] (Or.inl (by decide))⟩

/-- Count occurrences of the JSON string `v` in a list of JSON values. -/
def jcountS (v : String) : List JVal → Nat
  | [] => 0
  | .s w :: rest => (if w = v then 1 else 0) + jcountS v rest
  | _ :: rest => jcountS v rest

/-- How many times the string `v` occurs in the `members` array of a
response body (0 when there is no `members` array). -/
def membersCountS (r : HResult) (v : String) : Nat :=
  match jget r.resp.body "members" with
  | some (.arr js) => jcountS v js
  | _ => 0

/-- Perform `/set/add/<key>/<value>` `n` times in sequence. -/
def addManySet (key value : String) : Nat → Store → Store
  | 0, s => s
  | n + 1, s => addManySet key value n (add_set_member key value s).store

theorem jcountS_map (v : String) (xs : List String) :
    jcountS v (xs.map JVal.s) = xs.count v := by
  induction xs with
  | nil => rfl
  | cons w rest ih =>
      show (if w = v then 1 else 0) + jcountS v (rest.map JVal.s) = _
      rw [ih, List.count_cons]
      rcases eq_or_ne w v with hw | hw
      · subst hw; simp [Nat.add_comm]
      · simp [hw, beq_iff_eq, Ne.symm hw]

theorem add_set_store_none (k v : String) (s : Store) (h : getKey k s = none) :
    getKey k (add_set_member k v s).store = some (RVal.set [v]) := by
  simp [add_set_member, add_set_member_core, rSadd, h, getKey_setKey_self]

theorem add_set_store_mem (k v : String) (s : Store) (xs : List String)
    (h : getKey k s = some (RVal.set xs)) (hv : v ∈ xs) :
    (add_set_member k v s).store = s := by
  simp [add_set_member, add_set_member_core, rSadd, h, hv]

theorem add_set_store_notmem (k v : String) (s : Store) (xs : List String)
    (h : getKey k s = some (RVal.set xs)) (hv : v ∉ xs) :
    getKey k (add_set_member k v s).store = some (RVal.set (xs ++ [v])) := by
  simp [add_set_member, add_set_member_core, rSadd, h, hv, getKey_setKey_self]

theorem addManySet_fixed (k v : String) (n : Nat) (s : Store) (xs : List String)
    (h : getKey k s = some (RVal.set xs)) (hv : v ∈ xs) :
    addManySet k v n s = s := by
  induction n with
  | zero => rfl
  | succ n ih =>
      show addManySet k v n (add_set_member k v s).store = s
      rw [add_set_store_mem k v s xs h hv, ih]

theorem add_set_invariant (k v : String) (s : Store)
    (h : getKey k s = none ∨ ∃ xs, getKey k s = some (RVal.set xs) ∧ xs.Nodup) :
    ∃ ys, getKey k (add_set_member k v s).store = some (RVal.set ys) ∧
          ys.Nodup ∧ v ∈ ys := by
  rcases h with h | ⟨xs, h, hnd⟩
  · exact ⟨[v], add_set_store_none k v s h, by simp, by simp⟩
  · by_cases hv : v ∈ xs
    · exact ⟨xs, by rw [add_set_store_mem k v s xs h hv]; exact h, hnd, hv⟩
    · refine ⟨xs ++ [v], add_set_store_notmem k v s xs h hv, ?_, by simp⟩
      simp [List.nodup_append, hnd, hv]

/-- Claim C5: adding member `m` to a set key any number `n ≥ 1` of times
(including twice) and then viewing the set shows `m` exactly once.  The
set key starts absent or holding a duplicate-free set, as every Redis
set is. -/
theorem sadd_then_view_member_once (S m : String) (n : Nat) (s : Store)
    (hn : 1 ≤ n)
    (h : getKey S s = none ∨ ∃ xs, getKey S s = some (RVal.set xs) ∧ xs.Nodup) :
    (view_set S (addManySet S m n s)).resp.code = 200 ∧
    membersCountS (view_set S (addManySet S m n s)) m = 1 := by
  obtain ⟨n', rfl⟩ : ∃ n', n = n' + 1 := ⟨n - 1, by omega⟩
  obtain ⟨ys, hy, hnd, hm⟩ := add_set_invariant S m s h
  have hall : addManySet S m (n' + 1) s = (add_set_member S m s).store :=
    addManySet_fixed S m n' _ ys hy hm
  rw [hall]
  have hne : ys.isEmpty = false := by
    cases ys with
    | nil => cases hm
    | cons a t => rfl
  simp [view_set, rSmembers, hy, hne, membersCountS, jget, jcountS_map,
    List.count_eq_one_of_mem hnd hm]

/-- Claim C5 witness: adding `"m"` twice to `"S"` in the empty store. -/
theorem sadd_then_view_member_once_witness :
    1 ≤ 2 ∧
    ((view_set "S" (addManySet "S" "m" 2 [])).resp.code = 200 ∧
     membersCountS (view_set "S" (addManySet "S" "m" 2 [])) "m" = 1) :=
  ⟨by decide, sadd_then_view_member_once "S" "m" 2 [] (by decide) (Or.inl (by decide))⟩

theorem mem_zinsert (a p : String × Int) (l : List (String × Int)) :
    a ∈ zinsert p l ↔ a = p ∨ a ∈ l := by
  induction l with
  | nil => simp [zinsert]
  | cons q qs ih =>
      show a ∈ (if p.2 < q.2 ∨ (p.2 = q.2 ∧ p.1 ≤ q.1) then p :: q :: qs
                else q :: zinsert p qs) ↔ _
      split
      · simp only [List.mem_cons]
        try tauto
      · simp only [List.mem_cons, ih]
        try tauto

theorem mem_zsortList (a : String × Int) (l : List (String × Int)) :
    a ∈ zsortList l ↔ a ∈ l := by
  induction l with
  | nil => simp [zsortList]
  | cons p ps ih => simp [zsortList, mem_zinsert, ih]

theorem view_zset_contains (Z : String) (s : Store) (zs : List (String × Int))
    (h : getKey Z s = some (RVal.zset zs)) (p : String × Int) (hp : p ∈ zs) :
    (view_zset Z s).resp.code = 200 ∧
    ∃ js, jget (view_zset Z s).resp.body "members" = some (.arr js) ∧
          JVal.obj [("member", .s p.1), ("score", .i p.2)] ∈ js := by
  have hmem : p ∈ zsortList zs := (mem_zsortList p zs).mpr hp
  have hne : (zsortList zs).isEmpty = false := by
    cases hz : zsortList zs with
    | nil => rw [hz] at hmem; cases hmem
    | cons a t => rfl
  refine ⟨?_,
    (zsortList zs).map (fun q => JVal.obj [("member", .s q.1), ("score", .i q.2)]),
    ?_, ?_⟩
  · simp [view_zset, rZrange, h, hne]
  · simp [view_zset, rZrange, h, hne, jget]
  · exact List.mem_map_of_mem _ hmem

/-- Claim C6: adding member `"p"` with score `5` to a sorted-set key and then
viewing it returns a members list containing `{member: "p", score: 5}`.
The key starts absent or holding a sorted set. -/
theorem zadd_then_view_contains (Z : String) (s : Store)
    (h : getKey Z s = none ∨ ∃ ms, getKey Z s = some (RVal.zset ms)) :
    (view_zset Z (add_zset_member Z "p" 5 s).store).resp.code = 200 ∧
    ∃ js, jget (view_zset Z (add_zset_member Z "p" 5 s).store).resp.body "members"
            = some (.arr js) ∧
          JVal.obj [("member", .s "p"), ("score", .i 5)] ∈ js := by
  rcases h with h | ⟨ms, h⟩
  · have hst : getKey Z (add_zset_member Z "p" 5 s).store
        = some (RVal.zset [("p", 5)]) := by
      simp [add_zset_member, rZadd, h, getKey_setKey_self]
    exact view_zset_contains Z _ _ hst ("p", 5) (by simp)
  · have hst : getKey Z (add_zset_member Z "p" 5 s).store
        = some (RVal.zset (("p", 5) :: ms.filter (fun q => q.1 ≠ "p"))) := by
      simp [add_zset_member, rZadd, h, getKey_setKey_self]
    exact view_zset_contains Z _ _ hst ("p", 5) (List.mem_cons_self _ _)

/-- Claim C6 witness at key `"Z"` in the empty store. -/
theorem zadd_then_view_contains_witness :
    (getKey "Z" [] = none ∨ ∃ ms, getKey "Z" [] = some (RVal.zset ms)) ∧
    ((view_zset "Z" (add_zset_member "Z" "p" 5 []).store).resp.code = 200 ∧
     ∃ js, jget (view_zset "Z" (add_zset_member "Z" "p" 5 []).store).resp.body "members"
             = some (.arr js) ∧
           JVal.obj [("member", .s "p"), ("score", .i 5)] ∈ js) :=
  ⟨Or.inl (by decide), zadd_then_view_contains "Z" [] (Or.inl (by decide))⟩

/-- Call the `/visits` route `n` times in sequence, collecting the
results and threading the store. -/
def runVisits : Nat → Store → List HResult × Store
  | 0, s => ([], s)
  | n + 1, s =>
      let h := visit_counter s
      let r := runVisits n h.store
      (h :: r.fst, r.snd)

/-- The `total_visits` values carried by a sequence of responses. -/
def totalsOf (rs : List HResult) : List Int :=
  rs.filterMap (fun h =>
    match jget h.resp.body "total_visits" with
    | some (.i n) => some n
    | _ => none)

/-- The integers `c + 1, c + 2, ..., c + n`. -/
def ramp (c : Int) : Nat → List Int
  | 0 => []
  | n + 1 => (c + 1) :: ramp (c + 1) n

theorem visit_counter_int (c : Int) :
    visit_counter [("visit_count", RVal.int c)] =
      ⟨⟨200, [("message", .s "Page visit counter"), ("total_visits", .i (c + 1))]⟩,
       [("visit_count", RVal.int (c + 1))], 1⟩ := by
  simp [visit_counter, rIncr, getKey, setKey]

theorem runVisits_totals (n : Nat) (c : Int) :
    totalsOf (runVisits n [("visit_count", RVal.int c)]).fst = ramp c n := by
  induction n generalizing c with
  | zero => rfl
  | succ n ih =>
      show totalsOf (visit_counter [("visit_count", RVal.int c)] ::
        (runVisits n (visit_counter [("visit_count", RVal.int c)]).store).fst) = _
      rw [visit_counter_int]
      show totalsOf (_ :: (runVisits n [("visit_count", RVal.int (c + 1))]).fst) = _
      simp only [totalsOf, List.filterMap_cons] at ih ⊢
      rw [ih]
      rfl

theorem ramp_chainFrom (n : Nat) (c : Int) :
    List.Chain (· < ·) c (ramp c n) := by
  induction n generalizing c with
  | zero => exact List.Chain.nil
  | succ n ih => exact List.Chain.cons (by omega) (ih (c + 1))

theorem ramp_chain (n : Nat) (c : Int) : List.Chain' (· < ·) (ramp c n) := by
  cases n with
  | zero => exact trivial
  | succ n => exact ramp_chainFrom n (c + 1)

theorem ramp_length (n : Nat) (c : Int) : (ramp c n).length = n := by
  induction n generalizing c with
  | zero => rfl
  | succ n ih => simp [ramp, ih]

theorem ramp_getLast (n : Nat) (c : Int) :
    (ramp c (n + 1)).getLast? = some (c + (n + 1)) := by
  induction n generalizing c with
  | zero => simp [ramp]
  | succ n ih =>
      show ((c + 1) :: (c + 1 + 1) :: ramp (c + 1 + 1) n).getLast? = _
      rw [List.getLast?_cons_cons,
        show ((c + 1 + 1) :: ramp (c + 1 + 1) n : List Int) = ramp (c + 1) (n + 1) from rfl,
        ih (c + 1)]
      congr 1
      push_cast
      ring

/-- Claim C2: starting from an integer counter value `c`, calling the
`/visits` route `N ≥ 1` times in sequence yields `total_visits` values
that are strictly increasing and end at `c + N`, one per call. -/
theorem visits_counter_increasing (N : Nat) (c : Int) (hN : 1 ≤ N) :
    (totalsOf (runVisits N [("visit_count", RVal.int c)]).fst).length = N ∧
    List.Chain' (· < ·) (totalsOf (runVisits N [("visit_count", RVal.int c)]).fst) ∧
    (totalsOf (runVisits N [("visit_count", RVal.int c)]).fst).getLast? = some (c + N) := by
  rw [runVisits_totals]
  obtain ⟨n, rfl⟩ : ∃ n, N = n + 1 := ⟨N - 1, by omega⟩
  exact ⟨ramp_length _ _, ramp_chain _ _, ramp_getLast n c⟩

/-- Claim C2 witness: three calls starting from counter value 7. -/
theorem visits_counter_increasing_witness :
    1 ≤ 3 ∧
    ((totalsOf (runVisits 3 [("visit_count", RVal.int 7)]).fst).length = 3 ∧
     List.Chain' (· < ·) (totalsOf (runVisits 3 [("visit_count", RVal.int 7)]).fst) ∧
     (totalsOf (runVisits 3 [("visit_count", RVal.int 7)]).fst).getLast?
       = some (7 + (3 : Nat))) :=
  ⟨by decide, visits_counter_increasing 3 7 (by decide)⟩

/-- Claim C3: `/set/add/<key>/<value>` on a key holding a structure that
is not a set answers 400 with an error body, and any other store error
on that route is answered 500 with an error body. -/
theorem sadd_wrongtype_400 :
    (∀ (key value : String) (s : Store) (r : RVal),
        getKey key s = some r → (∀ xs, r ≠ RVal.set xs) →
        (add_set_member key value s).resp.code = 400 ∧
        jget (add_set_member key value s).resp.body "status" = some (.s "error")) ∧
    (∀ (key value : String) (s : Store) (msg : String),
        (add_set_member_core key value s (.error (.other msg))).resp.code = 500 ∧
        jget (add_set_member_core key value s (.error (.other msg))).resp.body "status"
          = some (.s "error")) := by
  constructor
  · intro key value s r h hns
    cases r
    case set xs => exact absurd rfl (hns xs)
    all_goals simp [add_set_member, add_set_member_core, rSadd, h, jget]
  · intro key value s msg
    simp [add_set_member_core, jget]

/-- Claim C3 witness: the key `"a"` holds the scalar `"1"`. -/
theorem sadd_wrongtype_400_witness :
    (add_set_member "a" "m" [("a", RVal.str "1")]).resp.code = 400 ∧
    jget (add_set_member "a" "m" [("a", RVal.str "1")]).resp.body "status"
      = some (.s "error") :=
  sadd_wrongtype_400.1 "a" "m" [("a", RVal.str "1")] (RVal.str "1") (by decide)
    (fun xs h => nomatch h)

/-- The `status` field of a response. -/
def statusField (h : HResult) : Option JVal := jget h.resp.body "status"

/-- The response is tagged with one of the three documented statuses. -/
def goodStatus (h : HResult) : Prop :=
  statusField h = some (.s "success") ∨ statusField h = some (.s "error") ∨
    statusField h = some (.s "empty")

theorem goodStatus_set_value (k v : String) (s : Store) :
    goodStatus (set_value k v s) :=
  Or.inl rfl

theorem goodStatus_get_value (k : String) (s : Store) :
    goodStatus (get_value k s) := by
  unfold goodStatus statusField
  cases hr : rGet k s with
  | error e => simp [get_value, hr, jget]
  | ok o =>
      cases o with
      | none => simp [get_value, hr, jget]
      | some v =>
          by_cases hv : v = "" <;> simp [get_value, hr, hv, jget]

theorem goodStatus_push_list (k v : String) (s : Store) :
    goodStatus (push_list k v s) := by
  unfold goodStatus statusField
  cases hr : rLpush k v s <;> simp [push_list, hr, jget]

theorem goodStatus_get_list (k : String) (s : Store) :
    goodStatus (get_list k s) := by
  unfold goodStatus statusField
  cases hr : rLrange k s with
  | error e => simp [get_list, hr, jget]
  | ok vs => by_cases hv : vs.isEmpty <;> simp [get_list, hr, hv, jget]

theorem goodStatus_add_set_member_core (k v : String) (s : Store)
    (res : Except RedisErr Store) :
    goodStatus (add_set_member_core k v s res) := by
  unfold goodStatus statusField
  cases res with
  | ok s' => simp [add_set_member_core, jget]
  | error e => cases e <;> simp [add_set_member_core, jget]

theorem goodStatus_view_set (k : String) (s : Store) :
    goodStatus (view_set k s) := by
  unfold goodStatus statusField
  cases hr : rSmembers k s with
  | error e => simp [view_set, hr, jget]
  | ok vs => by_cases hv : vs.isEmpty <;> simp [view_set, hr, hv, jget]

theorem goodStatus_set_hash_field (k f v : String) (s : Store) :
    goodStatus (set_hash_field k f v s) := by
  unfold goodStatus statusField
  cases hr : rHset k f v s <;> simp [set_hash_field, hr, jget]

theorem goodStatus_view_hash (k : String) (s : Store) :
    goodStatus (view_hash k s) := by
  unfold goodStatus statusField
  cases hr : rHgetall k s with
  | error e => simp [view_hash, hr, jget]
  | ok fs => by_cases hv : fs.isEmpty <;> simp [view_hash, hr, hv, jget]

theorem goodStatus_add_zset_member (k m : String) (sc : Int) (s : Store) :
    goodStatus (add_zset_member k m sc s) := by
  unfold goodStatus statusField
  cases hr : rZadd k m sc s <;> simp [add_zset_member, hr, jget]

theorem goodStatus_view_zset (k : String) (s : Store) :
    goodStatus (view_zset k s) := by
  unfold goodStatus statusField
  cases hr : rZrange k s with
  | error e => simp [view_zset, hr, jget]
  | ok vs => by_cases hv : vs.isEmpty <;> simp [view_zset, hr, hv, jget]

theorem visit_counter_status (s : Store) :
    (statusField (visit_counter s) = none ∧ (visit_counter s).resp.code = 200) ∨
    (statusField (visit_counter s) = some (.s "error") ∧ (visit_counter s).resp.code = 500) := by
  unfold statusField
  cases hr : rIncr "visit_count" s with
  | ok p => obtain ⟨n, s'⟩ := p; left; simp [visit_counter, hr, jget]
  | error e => right; simp [visit_counter, hr, jget]

/-- Claim C8 counterexample: the home route's response body carries no
`status` field at all, so not every response is tagged with one of
`success`, `error`, `empty`. -/
theorem home_response_has_no_status : statusField (home []) = none := rfl

/-- Claim C8 (amended): every response of every route other than `/` is
tagged with a `status` in {`success`, `error`, `empty`}, except the
success response of `/visits`; the `/` response and the `/visits`
success response carry no `status` field. -/
theorem responses_tagged_status :
    (∀ k v s, goodStatus (set_value k v s)) ∧
    (∀ k s, goodStatus (get_value k s)) ∧
    (∀ k v s, goodStatus (push_list k v s)) ∧
    (∀ k s, goodStatus (get_list k s)) ∧
    (∀ k v s, goodStatus (add_set_member k v s)) ∧
    (∀ k v s res, goodStatus (add_set_member_core k v s res)) ∧
    (∀ k s, goodStatus (view_set k s)) ∧
    (∀ k f v s, goodStatus (set_hash_field k f v s)) ∧
    (∀ k s, goodStatus (view_hash k s)) ∧
    (∀ k m sc s, goodStatus (add_zset_member k m sc s)) ∧
    (∀ k s, goodStatus (view_zset k s)) ∧
    (∀ s, statusField (home s) = none) ∧
    (∀ s, (statusField (visit_counter s) = none ∧ (visit_counter s).resp.code = 200) ∨
          (statusField (visit_counter s) = some (.s "error") ∧
            (visit_counter s).resp.code = 500)) :=
  ⟨goodStatus_set_value, goodStatus_get_value, goodStatus_push_list, goodStatus_get_list,
   fun k v s => goodStatus_add_set_member_core k v s (rSadd k v s),
   goodStatus_add_set_member_core, goodStatus_view_set, goodStatus_set_hash_field,
   goodStatus_view_hash, goodStatus_add_zset_member, goodStatus_view_zset,
   fun _ => rfl, visit_counter_status⟩

/-- Claim C9 counterexample: the successful read of list `"L"` emits no
log line (`get_list` only logs on its exception path), so it is not the
case that every request emits exactly one log line. -/
theorem get_list_emits_no_log : (get_list "L" []).logs = 0 ∧ (get_list "L" []).logs ≠ 1 := by
  constructor
  · rfl
  · intro h
    simp [get_list, rLrange, getKey] at h

theorem logs_home (s : Store) : (home s).logs = 0 := rfl

theorem logs_set_value (k v : String) (s : Store) : (set_value k v s).logs = 1 := rfl

theorem logs_get_value (k : String) (s : Store) :
    (get_value k s).logs = if (get_value k s).resp.code = 404 then 0 else 1 := by
  unfold get_value
  split <;> (try split) <;> simp_all

theorem logs_push_list (k v : String) (s : Store) : (push_list k v s).logs = 1 := by
  unfold push_list
  split <;> rfl

theorem logs_get_list (k : String) (s : Store) :
    (get_list k s).logs = if (get_list k s).resp.code = 500 then 1 else 0 := by
  unfold get_list
  split <;> (try split) <;> simp_all

theorem logs_add_set_member_core (k v : String) (s : Store) (res : Except RedisErr Store) :
    (add_set_member_core k v s res).logs
      = if (add_set_member_core k v s res).resp.code = 400 then 0 else 1 := by
  unfold add_set_member_core
  split <;> simp

theorem logs_add_set_member (k v : String) (s : Store) :
    (add_set_member k v s).logs
      = if (add_set_member k v s).resp.code = 400 then 0 else 1 :=
  logs_add_set_member_core k v s (rSadd k v s)

theorem logs_view_set (k : String) (s : Store) :
    (view_set k s).logs = if (view_set k s).resp.code = 500 then 1 else 0 := by
  unfold view_set
  split <;> (try split) <;> simp_all

theorem logs_set_hash_field (k f v : String) (s : Store) :
    (set_hash_field k f v s).logs = 1 := by
  unfold set_hash_field
  split <;> rfl

theorem logs_view_hash (k : String) (s : Store) :
    (view_hash k s).logs = if (view_hash k s).resp.code = 500 then 1 else 0 := by
  unfold view_hash
  split <;> (try split) <;> simp_all

theorem logs_add_zset_member (k m : String) (sc : Int) (s : Store) :
    (add_zset_member k m sc s).logs = 1 := by
  unfold add_zset_member
  split <;> rfl

theorem logs_view_zset (k : String) (s : Store) :
    (view_zset k s).logs = if (view_zset k s).resp.code = 500 then 1 else 0 := by
  unfold view_zset
  split <;> (try split) <;> simp_all

theorem logs_visit_counter (s : Store) : (visit_counter s).logs = 1 := by
  unfold visit_counter
  split <;> rfl

/-- Claim C9 (amended): every route emits at most one log line per
request, with the exact count determined by the outcome: the home route
emits none; the write routes (`/set`, `/list/<key>/push`, `/hash`,
`/zset`) and `/visits` emit exactly one on every path; `/get` emits one
except on its 404 not-found response, where it emits none; the read
routes `/list`, `/set/view`, `/hash/view`, `/zset/view` emit one
exactly on their 500 exception responses and none otherwise; and
`/set/add` emits none on its 400 wrong-type response and one on every
other path. -/
theorem log_lines_per_path :
    (∀ s, (home s).logs = 0) ∧
    (∀ k v s, (set_value k v s).logs = 1) ∧
    (∀ k s, (get_value k s).logs = if (get_value k s).resp.code = 404 then 0 else 1) ∧
    (∀ k v s, (push_list k v s).logs = 1) ∧
    (∀ k s, (get_list k s).logs = if (get_list k s).resp.code = 500 then 1 else 0) ∧
    (∀ k v s, (add_set_member k v s).logs
        = if (add_set_member k v s).resp.code = 400 then 0 else 1) ∧
    (∀ k v s res, (add_set_member_core k v s res).logs
        = if (add_set_member_core k v s res).resp.code = 400 then 0 else 1) ∧
    (∀ k s, (view_set k s).logs = if (view_set k s).resp.code = 500 then 1 else 0) ∧
    (∀ k f v s, (set_hash_field k f v s).logs = 1) ∧
    (∀ k s, (view_hash k s).logs = if (view_hash k s).resp.code = 500 then 1 else 0) ∧
    (∀ k m sc s, (add_zset_member k m sc s).logs = 1) ∧
    (∀ k s, (view_zset k s).logs = if (view_zset k s).resp.code = 500 then 1 else 0) ∧
    (∀ s, (visit_counter s).logs = 1) :=
  ⟨logs_home, logs_set_value, logs_get_value, logs_push_list, logs_get_list,
   logs_add_set_member, logs_add_set_member_core, logs_view_set, logs_set_hash_field,
   logs_view_hash, logs_add_zset_member, logs_view_zset, logs_visit_counter⟩
